import Mathlib

/-!
Verification of the `contructor_derive` attribute expander (src/src/lib.rs).

The crate exposes two attributes, `constructor` and `destructor`.
Each one parses the annotated item, optionally parses an integer priority
literal from the attribute arguments, and emits the original function followed
by one `#[doc(hidden)] pub mod <name>_ctor` (resp. `_dtor`) holding a single
`#[no_mangle] pub static <name>: extern fn() = super::<name>;` declaration
tagged with a platform-dependent `link_section`.

The shallow embedding below mirrors `lib.rs` line by line: Rust panics become
`Except.error`, token streams are abstracted by their parse outcome, and the
`quote!` output templates become the `Fragment` record.
-/

namespace ContructorDerive

/-- The operating-system value that `cfg!(target_os = ...)` resolves to when
the crate containing the `cfg!` invocation is compiled.  For this crate that
is the build of the proc-macro crate itself (which rustc compiles for the
machine hosting the expansion), a fact recorded with claim C3. -/
inductive TargetOs where
  | linux
  | macos
  | windows
  | otherOs
deriving DecidableEq, Repr

/-- `syn::ItemFn` as used by the code: only the identifier is inspected
(`func.ident`); everything else (attributes, signature, body) is carried
verbatim through `#func` and modelled as an opaque string `rest`. -/
structure ItemFn where
  ident : String
  rest : String
deriving DecidableEq, Repr

/-- `syn::Item`: a function item or any other item kind (type, module,
constant, ...), the latter abstracted by a description of its kind. -/
inductive Item where
  | fn (func : ItemFn)
  | otherItem (kind : String)
deriving DecidableEq, Repr

/-- `syn::Lit`: an integer literal (with its `u64` value), a string literal,
or some other literal kind. -/
inductive ExprLit where
  | int (n : Nat)
  | str (s : String)
  | otherLit
deriving DecidableEq, Repr

/-- `syn::Expr` as far as `parse_priority` inspects it: a literal expression
or any non-literal expression (unary minus, path, call, ...). -/
inductive Expr where
  | lit (l : ExprLit)
  | nonLit
deriving DecidableEq, Repr

/-- The attribute-argument `TokenStream`, abstracted by its parse outcome:
empty (`args.is_empty()`), non-empty and parsable as a `syn::Expr`, or
non-empty and rejected by `syn::parse` (whose `unwrap` then panics). -/
inductive Args where
  | empty
  | parsable (e : Expr)
  | unparsable
deriving DecidableEq, Repr

/-- The fatal outcomes of an expansion.  `unsupportedTarget` is the
`panic!("... is only defined for function!")` in `constructor`/`destructor`,
`invalidPriority` is the `syn::parse(args).unwrap()` panic in
`parse_priority`, and `unsupportedPlatform` is the `unimplemented!()` branch
of `gen_ctor`/`gen_dtor`. -/
inductive ExpandError where
  | unsupportedTarget
  | invalidPriority
  | unsupportedPlatform
deriving DecidableEq, Repr

/-- The static declaration produced inside the hidden module:
`#[link_section = ...] #[no_mangle] pub static <name>: extern fn() =
super::<name>;`.  `value` is the initializer expression. -/
structure StaticDecl where
  link_section : String
  no_mangle : Bool
  name : String
  ty : String
  value : String
deriving DecidableEq, Repr

/-- `#[doc(hidden)] pub mod <name> { <decl> }`. -/
structure HiddenMod where
  doc_hidden : Bool
  name : String
  decl : StaticDecl
deriving DecidableEq, Repr

/-- The whole expansion output: the original function followed by exactly one
hidden module holding exactly one static declaration, as in the final
`quote!` template of `gen_ctor`/`gen_dtor`. -/
structure Fragment where
  func : ItemFn
  modItem : HiddenMod
deriving DecidableEq, Repr

/-- `parse_priority` (lib.rs:82-94).  Empty arguments yield `None`; an
unparsable stream panics at the `unwrap`; a parsed expression yields
`Some(n.value())` only when it is `Expr::Lit(Lit::Int(n))` and falls through
to `None` otherwise. -/
def parse_priority : Args → Except ExpandError (Option Nat)
  | Args.empty => Except.ok none
  | Args.unparsable => Except.error ExpandError.invalidPriority
  | Args.parsable (Expr.lit (ExprLit.int n)) => Except.ok (some n)
  | Args.parsable _ => Except.ok none

/-- `gen_ctor` (lib.rs:96-130).  The priority is received and ignored
(`_priority`).  The module name is `format!("{}_ctor", func.ident)` and the
static declaration is selected by the `cfg!(target_os = ...)` cascade, with
`unimplemented!()` on every other platform. -/
def gen_ctor (cfg : TargetOs) (func : ItemFn) (_priority : Option Nat) :
    Except ExpandError Fragment :=
  let mod_name := func.ident ++ "_ctor"
  let func_name := func.ident
  let ctor : Except ExpandError StaticDecl :=
    match cfg with
    | TargetOs.linux =>
        Except.ok { link_section := ".ctors", no_mangle := true,
                    name := func_name, ty := "extern fn()",
                    value := "super::" ++ func_name }
    | TargetOs.macos =>
        Except.ok { link_section := "__DATA,__mod_init_func", no_mangle := true,
                    name := func_name, ty := "extern fn()",
                    value := "super::" ++ func_name }
    | TargetOs.windows =>
        Except.ok { link_section := ".CRT$XCU", no_mangle := true,
                    name := func_name, ty := "extern fn()",
                    value := "super::" ++ func_name }
    | TargetOs.otherOs => Except.error ExpandError.unsupportedPlatform
  match ctor with
  | Except.error e => Except.error e
  | Except.ok c =>
      Except.ok { func := func,
                  modItem := { doc_hidden := true, name := mod_name, decl := c } }

/-- `gen_dtor` (lib.rs:132-165): identical to `gen_ctor` except for the
`_dtor` module suffix and the destructor sections. -/
def gen_dtor (cfg : TargetOs) (func : ItemFn) (_priority : Option Nat) :
    Except ExpandError Fragment :=
  let mod_name := func.ident ++ "_dtor"
  let func_name := func.ident
  let ctor : Except ExpandError StaticDecl :=
    match cfg with
    | TargetOs.linux =>
        Except.ok { link_section := ".dtors", no_mangle := true,
                    name := func_name, ty := "extern fn()",
                    value := "super::" ++ func_name }
    | TargetOs.macos =>
        Except.ok { link_section := "__DATA,__mod_term_func", no_mangle := true,
                    name := func_name, ty := "extern fn()",
                    value := "super::" ++ func_name }
    | TargetOs.windows =>
        Except.ok { link_section := ".CRT$XPU", no_mangle := true,
                    name := func_name, ty := "extern fn()",
                    value := "super::" ++ func_name }
    | TargetOs.otherOs => Except.error ExpandError.unsupportedPlatform
  match ctor with
  | Except.error e => Except.error e
  | Except.ok c =>
      Except.ok { func := func,
                  modItem := { doc_hidden := true, name := mod_name, decl := c } }

/-- The `constructor` attribute entry point (lib.rs:56-66): non-function
items panic before the arguments are ever parsed; for a function the
priority is parsed and `gen_ctor` is invoked. -/
def constructor (cfg : TargetOs) (args : Args) (input : Item) :
    Except ExpandError Fragment :=
  match input with
  | Item.fn func =>
      match parse_priority args with
      | Except.error e => Except.error e
      | Except.ok priority => gen_ctor cfg func priority
  | Item.otherItem _ => Except.error ExpandError.unsupportedTarget

/-- The `destructor` attribute entry point (lib.rs:70-80). -/
def destructor (cfg : TargetOs) (args : Args) (input : Item) :
    Except ExpandError Fragment :=
  match input with
  | Item.fn func =>
      match parse_priority args with
      | Except.error e => Except.error e
      | Except.ok priority => gen_dtor cfg func priority
  | Item.otherItem _ => Except.error ExpandError.unsupportedTarget

/-- The spec's constructor-section table (spec.md §4): `.ctors` on
Linux-like, `__DATA,__mod_init_func` on Apple-like, `.CRT$XCU` on
Windows-like, unsupported otherwise. -/
def ctorSectionSpec : TargetOs → Option String
  | TargetOs.linux => some ".ctors"
  | TargetOs.macos => some "__DATA,__mod_init_func"
  | TargetOs.windows => some ".CRT$XCU"
  | TargetOs.otherOs => none

/-- The spec's destructor-section table (spec.md §4.1, expand-destructor). -/
def dtorSectionSpec : TargetOs → Option String
  | TargetOs.linux => some ".dtors"
  | TargetOs.macos => some "__DATA,__mod_term_func"
  | TargetOs.windows => some ".CRT$XPU"
  | TargetOs.otherOs => none

/-- Whether an expression is an integer literal, the only form from which
`parse_priority` extracts a value. -/
def isIntLit : Expr → Bool
  | Expr.lit (ExprLit.int _) => true
  | _ => false

theorem parse_priority_empty : parse_priority Args.empty = Except.ok none := rfl

theorem parse_priority_nonint (e : Expr) (h : isIntLit e = false) :
    parse_priority (Args.parsable e) = Except.ok none := by
  cases e with
  | nonLit => rfl
  | lit l => cases l with
    | int n => simp [isIntLit] at h
    | str s => rfl
    | otherLit => rfl

/-- C1: for every valid function definition `f` and empty arguments, the
constructor expansion succeeds on each supported platform and produces `f`
unchanged followed by exactly one hidden module named `<f>_ctor` holding a
single `#[no_mangle]` static of type `extern fn()` initialized to `f`'s
address, placed in the section of the spec's constructor table. -/
theorem constructor_noargs_ok (cfg : TargetOs) (f : ItemFn) (s : String)
    (h : ctorSectionSpec cfg = some s) :
    constructor cfg Args.empty (Item.fn f) =
      Except.ok { func := f,
                  modItem := { doc_hidden := true,
                               name := f.ident ++ "_ctor",
                               decl := { link_section := s,
                                         no_mangle := true,
                                         name := f.ident,
                                         ty := "extern fn()",
                                         value := "super::" ++ f.ident } } } := by
  cases cfg <;> simp [ctorSectionSpec] at h <;> subst h <;> rfl

theorem constructor_noargs_ok_witness :
    ctorSectionSpec TargetOs.linux = some ".ctors" ∧
    constructor TargetOs.linux Args.empty
        (Item.fn { ident := "set_ran", rest := "extern fn set_ran()" }) =
      Except.ok { func := { ident := "set_ran", rest := "extern fn set_ran()" },
                  modItem := { doc_hidden := true,
                               name := "set_ran" ++ "_ctor",
                               decl := { link_section := ".ctors",
                                         no_mangle := true,
                                         name := "set_ran",
                                         ty := "extern fn()",
                                         value := "super::" ++ "set_ran" } } } :=
  ⟨rfl, constructor_noargs_ok TargetOs.linux
    { ident := "set_ran", rest := "extern fn set_ran()" } ".ctors" rfl⟩

/-- C2: the destructor expansion is the analogous output: `f` unchanged
followed by exactly one hidden module named `<f>_dtor` holding a single
static of `f`'s address in the destructor section of the spec's table. -/
theorem destructor_noargs_ok (cfg : TargetOs) (f : ItemFn) (s : String)
    (h : dtorSectionSpec cfg = some s) :
    destructor cfg Args.empty (Item.fn f) =
      Except.ok { func := f,
                  modItem := { doc_hidden := true,
                               name := f.ident ++ "_dtor",
                               decl := { link_section := s,
                                         no_mangle := true,
                                         name := f.ident,
                                         ty := "extern fn()",
                                         value := "super::" ++ f.ident } } } := by
  cases cfg <;> simp [dtorSectionSpec] at h <;> subst h <;> rfl

theorem destructor_noargs_ok_witness :
    dtorSectionSpec TargetOs.windows = some ".CRT$XPU" ∧
    destructor TargetOs.windows Args.empty
        (Item.fn { ident := "reset_ran", rest := "extern fn reset_ran()" }) =
      Except.ok { func := { ident := "reset_ran", rest := "extern fn reset_ran()" },
                  modItem := { doc_hidden := true,
                               name := "reset_ran" ++ "_dtor",
                               decl := { link_section := ".CRT$XPU",
                                         no_mangle := true,
                                         name := "reset_ran",
                                         ty := "extern fn()",
                                         value := "super::" ++ "reset_ran" } } } :=
  ⟨rfl, destructor_noargs_ok TargetOs.windows
    { ident := "reset_ran", rest := "extern fn reset_ran()" } ".CRT$XPU" rfl⟩

/-- C3: the section is fixed by the `cfg!(target_os = ...)` values compiled
into the proc-macro crate itself, i.e. by the platform hosting the macro
expansion; the downstream compilation target is not an input to `constructor`
at all.  Expanding on a Linux host therefore emits `.ctors` even when the
compilation target is Windows, whose spec section is `.CRT$XCU`. -/
theorem constructor_section_from_host_cfg :
    (constructor TargetOs.linux Args.empty
        (Item.fn { ident := "set_ran", rest := "extern fn set_ran()" })).toOption.map
      (fun fr => fr.modItem.decl.link_section) = some ".ctors" ∧
    ctorSectionSpec TargetOs.windows = some ".CRT$XCU" ∧
    (".ctors" : String) ≠ ".CRT$XCU" := by
  refine ⟨rfl, rfl, by decide⟩

/-- C4 counterexample: an argument that is a string literal parses as an
expression that is not an integer literal, and both expansions succeed
instead of failing with `InvalidPriority` as the claim states. -/
theorem string_arg_does_not_fail :
    (constructor TargetOs.linux (Args.parsable (Expr.lit (ExprLit.str "foo")))
        (Item.fn { ident := "f", rest := "fn f()" })).isOk = true ∧
    (destructor TargetOs.linux (Args.parsable (Expr.lit (ExprLit.str "foo")))
        (Item.fn { ident := "f", rest := "fn f()" })).isOk = true :=
  ⟨rfl, rfl⟩

/-- C4 amended: only an argument stream that fails to parse as an expression
at all makes both expansions fail with `InvalidPriority` (producing no
output); an argument that parses as an expression but is not an integer
literal is silently ignored and never raises `InvalidPriority`. -/
theorem invalid_priority_amended (cfg : TargetOs) (f : ItemFn) (e : Expr)
    (h : isIntLit e = false) :
    constructor cfg Args.unparsable (Item.fn f) =
        Except.error ExpandError.invalidPriority ∧
    destructor cfg Args.unparsable (Item.fn f) =
        Except.error ExpandError.invalidPriority ∧
    constructor cfg (Args.parsable e) (Item.fn f) ≠
        Except.error ExpandError.invalidPriority ∧
    destructor cfg (Args.parsable e) (Item.fn f) ≠
        Except.error ExpandError.invalidPriority := by
  refine ⟨rfl, rfl, ?_, ?_⟩ <;>
    simp [constructor, destructor, parse_priority_nonint e h] <;>
    cases cfg <;> simp [gen_ctor, gen_dtor]

theorem invalid_priority_amended_witness :
    isIntLit (Expr.lit (ExprLit.str "x")) = false ∧
    (constructor TargetOs.macos Args.unparsable
        (Item.fn { ident := "g", rest := "fn g()" }) =
      Except.error ExpandError.invalidPriority ∧
    destructor TargetOs.macos Args.unparsable
        (Item.fn { ident := "g", rest := "fn g()" }) =
      Except.error ExpandError.invalidPriority ∧
    constructor TargetOs.macos (Args.parsable (Expr.lit (ExprLit.str "x")))
        (Item.fn { ident := "g", rest := "fn g()" }) ≠
      Except.error ExpandError.invalidPriority ∧
    destructor TargetOs.macos (Args.parsable (Expr.lit (ExprLit.str "x")))
        (Item.fn { ident := "g", rest := "fn g()" }) ≠
      Except.error ExpandError.invalidPriority) :=
  ⟨rfl, invalid_priority_amended TargetOs.macos
    { ident := "g", rest := "fn g()" } (Expr.lit (ExprLit.str "x")) rfl⟩

/-- C5: annotating any non-function item makes both operations fail with
`UnsupportedTarget` — irrespective of the platform and of the arguments,
since the item check happens before the arguments are parsed — and the error
result carries no output fragment. -/
theorem nonfn_unsupported_target (cfg : TargetOs) (args : Args) (kind : String) :
    constructor cfg args (Item.otherItem kind) =
        Except.error ExpandError.unsupportedTarget ∧
    destructor cfg args (Item.otherItem kind) =
        Except.error ExpandError.unsupportedTarget :=
  ⟨rfl, rfl⟩

/-- C6: on any platform outside the three supported families, both
expansions of a function item reach the `unimplemented!()` branch and fail
with `UnsupportedPlatform` (whenever the arguments themselves parse, since
argument parsing runs first); no fallback output exists. -/
theorem unsupported_platform_fatal (f : ItemFn) (args : Args) (p : Option Nat)
    (h : parse_priority args = Except.ok p) :
    constructor TargetOs.otherOs args (Item.fn f) =
        Except.error ExpandError.unsupportedPlatform ∧
    destructor TargetOs.otherOs args (Item.fn f) =
        Except.error ExpandError.unsupportedPlatform := by
  simp [constructor, destructor, h, gen_ctor, gen_dtor]

theorem unsupported_platform_fatal_witness :
    parse_priority Args.empty = Except.ok none ∧
    (constructor TargetOs.otherOs Args.empty
        (Item.fn { ident := "f", rest := "fn f()" }) =
      Except.error ExpandError.unsupportedPlatform ∧
    destructor TargetOs.otherOs Args.empty
        (Item.fn { ident := "f", rest := "fn f()" }) =
      Except.error ExpandError.unsupportedPlatform) :=
  ⟨rfl, unsupported_platform_fatal { ident := "f", rest := "fn f()" }
    Args.empty none rfl⟩

/-- C7: the parsed priority value has no effect on the generated output:
both generators produce identical fragments for any two priority values
(including absence), on every platform and function. -/
theorem priority_has_no_effect (cfg : TargetOs) (f : ItemFn)
    (p1 p2 : Option Nat) :
    gen_ctor cfg f p1 = gen_ctor cfg f p2 ∧
    gen_dtor cfg f p1 = gen_dtor cfg f p2 :=
  ⟨rfl, rfl⟩

/-- C8: the hidden-scope name is the deterministic function of the function
name and the role suffix alone: whenever a generator succeeds, the module
name is exactly `ident ++ "_ctor"` (resp. `ident ++ "_dtor"`), independent of
platform and priority, so two expansions of the same function under the same
role always agree on it. -/
theorem hidden_scope_name_deterministic (cfg : TargetOs) (f : ItemFn)
    (p : Option Nat) (fr : Fragment) :
    (gen_ctor cfg f p = Except.ok fr → fr.modItem.name = f.ident ++ "_ctor") ∧
    (gen_dtor cfg f p = Except.ok fr → fr.modItem.name = f.ident ++ "_dtor") := by
  constructor <;> intro h <;> cases cfg <;>
    simp [gen_ctor, gen_dtor] at h <;> simp [h.symm]

theorem hidden_scope_name_deterministic_witness :
    ({ func := { ident := "set_ran", rest := "extern fn set_ran()" },
       modItem := { doc_hidden := true,
                    name := "set_ran_ctor",
                    decl := { link_section := ".ctors",
                              no_mangle := true,
                              name := "set_ran",
                              ty := "extern fn()",
                              value := "super::set_ran" } } } : Fragment).modItem.name =
      ({ ident := "set_ran", rest := "extern fn set_ran()" } : ItemFn).ident ++ "_ctor" :=
  (hidden_scope_name_deterministic TargetOs.linux
    { ident := "set_ran", rest := "extern fn set_ran()" } none
    { func := { ident := "set_ran", rest := "extern fn set_ran()" },
      modItem := { doc_hidden := true,
                   name := "set_ran_ctor",
                   decl := { link_section := ".ctors",
                             no_mangle := true,
                             name := "set_ran",
                             ty := "extern fn()",
                             value := "super::set_ran" } } }).1 rfl

/-- C10: in every successful fragment, for either role and on every
supported platform, the static declaration inside the hidden module carries
the function's own identifier, is `#[no_mangle]`, has the fixed type
`extern fn()` independent of the function's actual signature, and is
initialized to the function's address `super::<ident>`. -/
theorem static_decl_shape (cfg : TargetOs) (f : ItemFn) (p : Option Nat)
    (fr : Fragment)
    (h : gen_ctor cfg f p = Except.ok fr ∨ gen_dtor cfg f p = Except.ok fr) :
    fr.modItem.decl.name = f.ident ∧
    fr.modItem.decl.no_mangle = true ∧
    fr.modItem.decl.ty = "extern fn()" ∧
    fr.modItem.decl.value = "super::" ++ f.ident := by
  rcases h with h | h <;> cases cfg <;>
    simp [gen_ctor, gen_dtor] at h <;> simp [h.symm]

theorem static_decl_shape_witness :
    (gen_ctor TargetOs.windows { ident := "h", rest := "fn h(x: u8) -> u8" } (some 5) =
      Except.ok { func := { ident := "h", rest := "fn h(x: u8) -> u8" },
                  modItem := { doc_hidden := true,
                               name := "h_ctor",
                               decl := { link_section := ".CRT$XCU",
                                         no_mangle := true,
                                         name := "h",
                                         ty := "extern fn()",
                                         value := "super::h" } } } ∨
     gen_dtor TargetOs.windows { ident := "h", rest := "fn h(x: u8) -> u8" } (some 5) =
      Except.ok { func := { ident := "h", rest := "fn h(x: u8) -> u8" },
                  modItem := { doc_hidden := true,
                               name := "h_ctor",
                               decl := { link_section := ".CRT$XCU",
                                         no_mangle := true,
                                         name := "h",
                                         ty := "extern fn()",
                                         value := "super::h" } } }) ∧
    (({ ident := "h", rest := "fn h(x: u8) -> u8" } : ItemFn).ident = "h" ∧
     true = true ∧
     ("extern fn()" : String) = "extern fn()" ∧
     ("super::h" : String) = "super::" ++ "h") :=
  ⟨Or.inl rfl,
   static_decl_shape TargetOs.windows { ident := "h", rest := "fn h(x: u8) -> u8" }
     (some 5)
     { func := { ident := "h", rest := "fn h(x: u8) -> u8" },
       modItem := { doc_hidden := true,
                    name := "h_ctor",
                    decl := { link_section := ".CRT$XCU",
                              no_mangle := true,
                              name := "h",
                              ty := "extern fn()",
                              value := "super::h" } } }
     (Or.inl rfl)⟩

/-- C9: an annotation argument that parses as an expression which is not an
integer literal (a string literal, a unary-minus expression, ...) yields
`None` from `parse_priority` without any error, and the expansion then
produces exactly the output of an invocation with no argument at all, for
both roles, on every platform and item. -/
theorem nonint_arg_ignored (cfg : TargetOs) (it : Item) (e : Expr)
    (h : isIntLit e = false) :
    parse_priority (Args.parsable e) = Except.ok none ∧
    constructor cfg (Args.parsable e) it = constructor cfg Args.empty it ∧
    destructor cfg (Args.parsable e) it = destructor cfg Args.empty it := by
  refine ⟨parse_priority_nonint e h, ?_, ?_⟩ <;>
    cases it <;>
    simp [constructor, destructor, parse_priority_nonint e h, parse_priority_empty]

theorem nonint_arg_ignored_witness :
    isIntLit Expr.nonLit = false ∧
    (parse_priority (Args.parsable Expr.nonLit) = Except.ok none ∧
    constructor TargetOs.linux (Args.parsable Expr.nonLit)
        (Item.fn { ident := "k", rest := "fn k()" }) =
      constructor TargetOs.linux Args.empty (Item.fn { ident := "k", rest := "fn k()" }) ∧
    destructor TargetOs.linux (Args.parsable Expr.nonLit)
        (Item.fn { ident := "k", rest := "fn k()" }) =
      destructor TargetOs.linux Args.empty (Item.fn { ident := "k", rest := "fn k()" })) :=
  ⟨rfl, nonint_arg_ignored TargetOs.linux
    (Item.fn { ident := "k", rest := "fn k()" }) Expr.nonLit rfl⟩

end ContructorDerive
